import Mathlib

/-!
Verification of the Spaces engine against its specification.

This file gives a shallow embedding, in Lean 4, of the core logic of the
repository: the asynchronous job-result wrapper (src/space_runner.py), the
schema-driven numeric binding of the GUI execution tab (src/gui.py), the
permissive CLI parameter binder (src/app.py, parse_run_params), and the
SQLite-backed content store (src/results_manager.py).  External collaborators
(the gradio_client Job API, the Qt widget toolkit, Python's json module, the
local file system, the SQLite engine) are modelled by explicit parameters or
by small definitions that mirror their documented, observed semantics; every
such modelling choice is recorded in the doc comment of the definition.
Machine integers do not overflow in any of the modelled code paths, so Nat/Int
are used directly.
-/

/-! ## Executor job results (src/space_runner.py) -/

/-- Outcome of one call to the external `gradio_client` `Job.result(timeout)`
method, as seen by the caller: a value, or one of the exceptions the source
catches (`TimeoutError`, `RuntimeError`, anything else). -/
inductive ResultCallOutcome (α : Type) where
  | ok (v : α)
  | timeoutError
  | runtimeError (msg : String)
  | otherError (msg : String)
deriving DecidableEq

/-- Observation of a submitted job at the moment the bounded wait ends:
either the job reached a terminal state (COMPLETED with a value, or FAILED
with an error message) before the deadline, or it was still non-terminal when
the deadline elapsed. -/
inductive JobOutcomeAtDeadline (α : Type) where
  | completedWith (v : α)
  | failedWith (msg : String)
  | stillRunning
deriving DecidableEq

/-- Semantics of the external `gradio_client` `Job.result(timeout)` call
(external collaborator, per its API): it returns the value when the job
completed, re-raises the job's error as a `RuntimeError` when the terminal
state is FAILED, and raises `TimeoutError` when the deadline elapses while the
job is still non-terminal. -/
def jobResultCall (o : JobOutcomeAtDeadline α) : ResultCallOutcome α :=
  match o with
  | .completedWith v => .ok v
  | .failedWith m => .runtimeError m
  | .stillRunning => .timeoutError

/-- Embedding of `get_job_result` (src/space_runner.py lines 103-128).  The
first component is the Python return value (`Some v` for a result, `none` for
Python `None`); the second component collects the messages printed on the
failure paths.  `isJob` models the `isinstance(job, Job)` guard. -/
def get_job_result (isJob : Bool) (call : ResultCallOutcome α) : Option α × List String :=
  if !isJob then
    (none, ["Error: Invalid Job object provided."])
  else
    match call with
    | .ok v => (some v, [])
    | .timeoutError => (none, ["Timeout waiting for job result."])
    | .runtimeError m =>
        (none, ["Runtime error getting job result: " ++ m ++ " (Job may have failed)"])
    | .otherError m => (none, ["Error getting job result: " ++ m])

/-! ## Strict numeric binding in the GUI execution tab (src/gui.py) -/

/-- The slice of a Gradio `ParameterSpec` that the number-int branch of
`SpacesUI.populate_execution_inputs` (src/gui.py lines 516-527) consults:
the optional `minimum`/`maximum` bounds of the schema. -/
structure NumberIntParam where
  minimum : Option Int
  maximum : Option Int
deriving DecidableEq

/-- The widget range installed by `widget.setRange(int(param.get("minimum",
-1000000)), int(param.get("maximum", 1000000)))` in the `py_type == "int"`
branch of `populate_execution_inputs`. -/
def spinBoxRange (p : NumberIntParam) : Int × Int :=
  (p.minimum.getD (-1000000), p.maximum.getD 1000000)

/-- Qt `QSpinBox` semantics (external GUI toolkit): any value supplied to the
widget, whether typed or set programmatically, is corrected into the closed
range `[lo, hi]` installed by `setRange` (Qt documentation: "setValue() will
correct the value to be within the valid range"). -/
def qtSpinBoxCorrect (lo hi v : Int) : Int := max lo (min v hi)

/-- Strict-mode binding of one number-int parameter: the value that
`handle_exec_run_space` reads back via `widget.value()` after the caller
supplies `v` through the `QSpinBox` created by `populate_execution_inputs`.
The function is total: the GUI defines no `BindingError` and no rejection
path for numeric inputs. -/
def bindNumberInt (p : NumberIntParam) (v : Int) : Int :=
  qtSpinBoxCorrect (spinBoxRange p).1 (spinBoxRange p).2 v

/-! ## Permissive CLI binding (src/app.py, parse_run_params) -/

/-- A bound argument value produced by permissive binding: a verbatim string,
a decoded JSON literal (of the abstract JSON-value type `α` produced by the
external `json.loads`), or a resolved file reference (the result of
`gradio_client.handle_file` on an existing path). -/
inductive PVal (α : Type) where
  | str (s : String)
  | json (j : α)
  | fileRef (path : String)
deriving DecidableEq

/-- Combined embedding of Python's `'=' in item` test and `item.split('=', 1)`:
`none` when the character list contains no `'='`, otherwise the parts before
and after the first `'='`. -/
def splitFirstEq : List Char → Option (List Char × List Char)
  | [] => none
  | c :: cs =>
      if c = '=' then some ([], cs)
      else (splitFirstEq cs).map (fun p => (c :: p.1, p.2))

/-- The extension list of src/app.py line 34. -/
def mediaExtensions : List String :=
  [".png", ".jpg", ".jpeg", ".gif", ".wav", ".mp3", ".txt", ".json", ".csv",
   ".glb", ".gltf", ".mp4", ".avi", ".mov"]

/-- Embedding of `any(value.endswith(ext) for ext in [...])`. -/
def hasMediaExtension (v : String) : Bool :=
  mediaExtensions.any (fun e => e.toList.isSuffixOf v.toList)

/-- Python dict assignment `kwargs_out[key] = value`: overwrite in place when
the key is already present, otherwise append at the end. -/
def dictInsert (kvs : List (String × PVal α)) (k : String) (v : PVal α) :
    List (String × PVal α) :=
  if kvs.any (fun p => p.1 == k) then
    kvs.map (fun p => if p.1 == k then (k, v) else p)
  else
    kvs ++ [(k, v)]

/-- Accumulator of the `for item in params_list` loop of `parse_run_params`:
positional arguments, keyword arguments and printed warnings, each in the
order produced. -/
structure ParseState (α : Type) where
  args : List (PVal α)
  kwargs : List (String × PVal α)
  warnings : List String
deriving DecidableEq

/-- The warning printed when a `key=value` pair names a media file that does
not exist locally (src/app.py line 38). -/
def fileNotFoundWarning (key value : String) : String :=
  "Warning: File path '" ++ value ++ "' for key '" ++ key ++
    "' does not exist. Passing as string."

/-- The `try: json.loads(value) except JSONDecodeError: value` idiom: decode
as a JSON literal when the external decoder succeeds, otherwise keep the
original string verbatim. -/
def decodeOrString (jsonLoads : String → Option α) (s : String) : PVal α :=
  match jsonLoads s with
  | some j => PVal.json j
  | none => PVal.str s

/-- One iteration of the `parse_run_params` loop (src/app.py lines 29-52).
`jsonLoads` is the external `json.loads` restricted to its success/failure
behaviour; `pathExists` is the external `os.path.exists`. -/
def parseItem (jsonLoads : String → Option α) (pathExists : String → Bool)
    (st : ParseState α) (item : String) : ParseState α :=
  match splitFirstEq item.toList with
  | some (kcs, vcs) =>
      let key := String.mk kcs
      let value := String.mk vcs
      if hasMediaExtension value then
        if pathExists value then
          { st with kwargs := dictInsert st.kwargs key (PVal.fileRef value) }
        else
          { st with
              kwargs := dictInsert st.kwargs key (PVal.str value),
              warnings := st.warnings ++ [fileNotFoundWarning key value] }
      else
        { st with kwargs := dictInsert st.kwargs key (decodeOrString jsonLoads value) }
  | none =>
      { st with args := st.args ++ [decodeOrString jsonLoads item] }

/-- Embedding of `parse_run_params` (src/app.py lines 18-53): fold the loop
body over the supplied tokens and return `(args_out, kwargs_out, warnings)`.
The function is total — permissive binding never fails. -/
def parse_run_params (jsonLoads : String → Option α) (pathExists : String → Bool)
    (tokens : List String) : List (PVal α) × List (String × PVal α) × List String :=
  let st := tokens.foldl (parseItem jsonLoads pathExists) ⟨[], [], []⟩
  (st.args, st.kwargs, st.warnings)

/-! ## SQL LIKE (SQLite semantics, used by filter_content's task_keyword) -/

/-- ASCII-only lowering, mirroring SQLite's built-in `LIKE` case folding,
which applies to the 26 ASCII letters only. -/
def asciiLower (c : Char) : Char :=
  if 'A' ≤ c ∧ c ≤ 'Z' then Char.ofNat (c.toNat + 32) else c

/-- Character comparison of SQLite `LIKE`: case-insensitive on ASCII letters,
exact elsewhere. -/
def likeCharMatches (p c : Char) : Bool := asciiLower p == asciiLower c

/-- Fuel-indexed matcher for SQLite `LIKE` patterns: `%` matches any sequence
(including the empty one), `_` matches exactly one character, and ordinary
characters match case-insensitively on ASCII.  Every recursive call decreases
`pattern.length + s.length`, so the fuel supplied by `sqlLike` below is always
sufficient; structural recursion on the fuel keeps the function kernel-reducible. -/
def likeMatchFuel : Nat → List Char → List Char → Bool
  | 0, _, _ => false
  | _ + 1, [], s => s.isEmpty
  | fuel + 1, '%' :: ps, s =>
      likeMatchFuel fuel ps s
        || (match s with
            | [] => false
            | _ :: cs => likeMatchFuel fuel ('%' :: ps) cs)
  | fuel + 1, '_' :: ps, s =>
      (match s with
       | [] => false
       | _ :: cs => likeMatchFuel fuel ps cs)
  | fuel + 1, p :: ps, s =>
      (match s with
       | [] => false
       | c :: cs => likeCharMatches p c && likeMatchFuel fuel ps cs)

/-- SQLite `LIKE` on strings, with always-sufficient fuel. -/
def sqlLike (pattern s : List Char) : Bool :=
  likeMatchFuel (pattern.length + s.length + 1) pattern s

/-- The predicate that `task_description LIKE ?` with parameter `f"%{kw}%"`
(src/results_manager.py lines 146-148) applies to a row's task description. -/
def sqlLikeContains (kw desc : String) : Bool :=
  sqlLike ("%" ++ kw ++ "%").toList desc.toList

/-- Case-preserving (exact, case-sensitive) substring test, written from the
specification's words "case-preserving substring match"; used to state the
original claim C6 against the code's `LIKE` behaviour. -/
def specSubstring (needle hay : String) : Bool :=
  (List.range (hay.toList.length + 1)).any
    (fun i => needle.toList.isPrefixOf (hay.toList.drop i))

/-! ## ContentStore (src/results_manager.py) -/

/-- One row of the `content_library` table, with the column types used by the
store: `id` is the AUTOINCREMENT integer primary key, `timestamp` is the
creation instant (modelled as a Nat-valued clock reading with at least the
resolution the comparisons need), `parameters` is the nullable JSON text
column, `notes` the nullable notes column. -/
structure Row where
  id : Nat
  space_id : String
  task_description : String
  timestamp : Nat
  output_type : String
  output_data : String
  parameters : Option String
  notes : Option String
deriving DecidableEq

/-- The persistent table state: the rows in insertion order together with the
next AUTOINCREMENT id (SQLite AUTOINCREMENT ids increase monotonically and
are never reused after deletion). -/
structure Store where
  rows : List Row
  nextId : Nat
deriving DecidableEq

/-- Well-formedness maintained by the store: ids strictly increase along the
insertion order and stay below the AUTOINCREMENT counter. -/
abbrev StoreWF (st : Store) : Prop :=
  st.rows.Pairwise (fun a b => a.id < b.id) ∧ ∀ r ∈ st.rows, r.id < st.nextId

/-- A record as returned to Python callers after `_dict_factory`
(src/results_manager.py lines 33-44): the row with the `parameters` JSON text
decoded to an abstract JSON value of type `π`. -/
structure RecordView (π : Type) where
  id : Nat
  space_id : String
  task_description : String
  timestamp : Nat
  output_type : String
  output_data : String
  parameters : Option π
  notes : Option String
deriving DecidableEq

/-- Embedding of `_dict_factory`: the `parameters` column is JSON-decoded via
the external `json.loads` (`loads`) when it is truthy (non-NULL and
non-empty); a decode failure degrades to `None` instead of raising.  The
unreachable truthiness corner (an empty string stored in the column, which
`add_content` never writes) is also mapped to `none`. -/
def dict_factory (loads : String → Option π) (r : Row) : RecordView π :=
  { id := r.id, space_id := r.space_id, task_description := r.task_description,
    timestamp := r.timestamp, output_type := r.output_type,
    output_data := r.output_data,
    parameters :=
      match r.parameters with
      | none => none
      | some s => if s = "" then none else loads s,
    notes := r.notes }

/-- Embedding of `add_content` (src/results_manager.py lines 46-73), error-free
path: INSERT a new row whose id is the AUTOINCREMENT counter, whose timestamp
is the current clock reading `now` (`datetime.now()`), and whose `parameters`
column holds `json.dumps(parameters)` (`dumps`, external); return
`cursor.lastrowid`. -/
def add_content (dumps : π → String) (space_id task_description output_type output_data : String)
    (parameters : π) (notes : Option String) (now : Nat) (st : Store) : Store × Option Nat :=
  let row : Row :=
    ⟨st.nextId, space_id, task_description, now, output_type, output_data,
      some (dumps parameters), notes⟩
  (⟨st.rows ++ [row], st.nextId + 1⟩, some st.nextId)

/-- Embedding of `get_content_by_id` (lines 75-94), error-free path:
`SELECT * WHERE id = ?` then `fetchone`, through `_dict_factory`. -/
def get_content_by_id (loads : String → Option π) (content_id : Nat) (st : Store) :
    Option (RecordView π) :=
  (st.rows.find? (fun r => r.id == content_id)).map (dict_factory loads)

/-- SQL `LIMIT ? OFFSET ?`: skip `offset` rows, then return at most `limit`. -/
def paginate (limit offset : Nat) (l : List Row) : List Row :=
  (l.drop offset).take limit

/-- Model of `ORDER BY timestamp DESC` as executed by SQLite on this table:
a stable sort by timestamp descending over the table scan, which visits rows
in rowid (id) order.  The query names no secondary sort key, so the order of
rows with equal timestamps is whatever the engine produces; SQLite's sorter
is observed to keep the scan order for ties on this plan, which the stable
`List.insertionSort` reproduces. -/
def sortRows (l : List Row) : List Row :=
  l.insertionSort (fun a b => b.timestamp ≤ a.timestamp)

/-- Embedding of `get_all_content` (lines 96-116), error-free path:
`SELECT * ORDER BY timestamp DESC LIMIT ? OFFSET ?` through `_dict_factory`. -/
def get_all_content (loads : String → Option π) (limit offset : Nat) (st : Store) :
    List (RecordView π) :=
  (paginate limit offset (sortRows st.rows)).map (dict_factory loads)

/-- Python truthiness of an optional string parameter: `if output_type:` is
taken only for a supplied, non-empty string. -/
def pyTruthy (o : Option String) : Bool := o.getD "" != ""

/-- The WHERE clause assembled by `filter_content` (lines 137-148): each
condition is appended only when its parameter is truthy; the conditions are
AND-combined; the keyword condition is `task_description LIKE '%kw%'`. -/
def filterPred (output_type space_id task_keyword : Option String) (r : Row) : Bool :=
  (if pyTruthy output_type then r.output_type == output_type.getD "" else true)
    && (if pyTruthy space_id then r.space_id == space_id.getD "" else true)
    && (if pyTruthy task_keyword then sqlLikeContains (task_keyword.getD "") r.task_description
        else true)

/-- Embedding of `filter_content` (lines 118-158), error-free path: the rows
satisfying the assembled WHERE clause, ordered and paginated exactly as
`get_all_content`, through `_dict_factory`. -/
def filter_content (loads : String → Option π) (output_type space_id task_keyword : Option String)
    (limit offset : Nat) (st : Store) : List (RecordView π) :=
  (paginate limit offset
      (sortRows (st.rows.filter (filterPred output_type space_id task_keyword)))).map
    (dict_factory loads)

/-- Embedding of `update_content_notes` (lines 160-179), error-free path:
`UPDATE ... SET notes = ? WHERE id = ?`; the result is `cursor.rowcount > 0`. -/
def update_content_notes (content_id : Nat) (notes : String) (st : Store) : Store × Bool :=
  (⟨st.rows.map (fun r => if r.id == content_id then { r with notes := some notes } else r),
      st.nextId⟩,
    st.rows.any (fun r => r.id == content_id))

/-- Embedding of `delete_content` (lines 181-199), error-free path:
`DELETE FROM ... WHERE id = ?`; the result is `cursor.rowcount > 0`. -/
def delete_content (content_id : Nat) (st : Store) : Store × Bool :=
  (⟨st.rows.filter (fun r => !(r.id == content_id)), st.nextId⟩,
    st.rows.any (fun r => r.id == content_id))

/-! Error-handling wrappers: every store operation runs its SQL inside
`try: with sqlite3.connect(...) ... except sqlite3.Error: return <neutral>`.
`fault` models the underlying database raising `sqlite3.Error` during the
`with` block; the connection context manager then rolls the transaction back
(store unchanged) and the handler returns the operation's neutral value.  The
wrappers are total functions: no exception propagates to the caller. -/

/-- `add_content` with its `except sqlite3.Error` handler (returns `None`). -/
def add_contentE (fault : Bool) (dumps : π → String)
    (space_id task_description output_type output_data : String) (parameters : π)
    (notes : Option String) (now : Nat) (st : Store) : Store × Option Nat :=
  if fault then (st, none)
  else add_content dumps space_id task_description output_type output_data parameters notes now st

/-- `get_content_by_id` with its handler (returns `None`). -/
def get_content_by_idE (fault : Bool) (loads : String → Option π) (content_id : Nat)
    (st : Store) : Option (RecordView π) :=
  if fault then none else get_content_by_id loads content_id st

/-- `get_all_content` with its handler (returns the empty list). -/
def get_all_contentE (fault : Bool) (loads : String → Option π) (limit offset : Nat)
    (st : Store) : List (RecordView π) :=
  if fault then [] else get_all_content loads limit offset st

/-- `filter_content` with its handler (returns the empty list). -/
def filter_contentE (fault : Bool) (loads : String → Option π)
    (output_type space_id task_keyword : Option String) (limit offset : Nat)
    (st : Store) : List (RecordView π) :=
  if fault then [] else filter_content loads output_type space_id task_keyword limit offset st

/-- `update_content_notes` with its handler (returns `False`, store rolled back). -/
def update_content_notesE (fault : Bool) (content_id : Nat) (notes : String)
    (st : Store) : Store × Bool :=
  if fault then (st, false) else update_content_notes content_id notes st

/-- `delete_content` with its handler (returns `False`, store rolled back). -/
def delete_contentE (fault : Bool) (content_id : Nat) (st : Store) : Store × Bool :=
  if fault then (st, false) else delete_content content_id st

/-! ## Concrete fixtures for witnesses and counterexamples -/

/-- A trivial concrete JSON encoder for instantiating the parametric external
`json.dumps` in witnesses. -/
def dumpsU : Unit → String := fun _ => "x"

/-- The matching concrete JSON decoder for `dumpsU`. -/
def loadsU : String → Option Unit := fun s => if s = "x" then some () else none

/-- A concrete `json.loads` behaviour over `Nat`-coded JSON values, agreeing
with Python's decoder on the tokens the binding examples use: `"50"` and
`"true"` decode, `"Hello"` and `"photo.png"` do not. -/
def jlW : String → Option Nat :=
  fun s => if s = "50" then some 1 else if s = "true" then some 2 else none

/-- A file system in which only `photo.png` exists. -/
def peP : String → Bool := fun s => s == "photo.png"

/-- The store before any insert: no rows, AUTOINCREMENT at 1. -/
def stEmpty : Store := ⟨[], 1⟩

/-- Two records created at the same clock reading: ids 1 and 2, both with
timestamp 5. -/
def stTie : Store :=
  (add_content dumpsU "s" "t" "text" "d" () none 5
      ((add_content dumpsU "s" "t" "text" "d" () none 5 stEmpty).1)).1

/-- One record whose task description is "Translate text to French". -/
def stFrench : Store :=
  (add_content dumpsU "org/translation_service" "Translate text to French" "text" "Bonjour"
      () none 3 stEmpty).1

/-- Rows ordered by timestamp descending with ties broken by id ascending
(the order the embedded `ORDER BY timestamp DESC` produces on a well-formed
store). -/
abbrev rowTsDescIdAsc (a b : Row) : Prop :=
  b.timestamp < a.timestamp ∨ (a.timestamp = b.timestamp ∧ a.id < b.id)

/-- The same order on returned records. -/
abbrev viewTsDescIdAsc (a b : RecordView π) : Prop :=
  b.timestamp < a.timestamp ∨ (a.timestamp = b.timestamp ∧ a.id < b.id)

/-- The order asserted by the original claim C3: timestamp descending with
ties broken by id descending. -/
abbrev viewTsDescIdDesc (a b : RecordView π) : Prop :=
  b.timestamp < a.timestamp ∨ (a.timestamp = b.timestamp ∧ b.id < a.id)

/-! ## Helper lemmas -/

theorem splitFirstEq_of_no_eq (k v : List Char) (hk : '=' ∉ k) :
    splitFirstEq (k ++ '=' :: v) = some (k, v) := by
  induction k with
  | nil => simp [splitFirstEq]
  | cons c cs ih =>
      have hc : c ≠ '=' := fun h => hk (h ▸ List.mem_cons_self c cs)
      have hcs : '=' ∉ cs := fun h => hk (List.mem_cons_of_mem c h)
      simp [splitFirstEq, hc, ih hcs]

theorem splitFirstEq_eq_none_iff (cs : List Char) :
    splitFirstEq cs = none ↔ cs.any (fun c => c == '=') = false := by
  induction cs with
  | nil => simp [splitFirstEq]
  | cons c cs ih =>
      by_cases hc : c = '='
      · simp [splitFirstEq, hc]
      · simp [splitFirstEq, hc, ih]

theorem parseItem_args (jl : String → Option α) (pe : String → Bool)
    (st : ParseState α) (item : String) :
    (parseItem jl pe st item).args
      = st.args ++ (cond (item.toList.any (fun c => c == '=')) [] [decodeOrString jl item]) := by
  unfold parseItem
  cases hsp : splitFirstEq item.toList with
  | none =>
      have hany := (splitFirstEq_eq_none_iff item.toList).1 hsp
      rw [hany]
      rfl
  | some p =>
      have hany : item.toList.any (fun c => c == '=') = true := by
        cases hval : item.toList.any (fun c => c == '=') with
        | true => rfl
        | false => rw [(splitFirstEq_eq_none_iff item.toList).2 hval] at hsp; cases hsp
      obtain ⟨kcs, vcs⟩ := p
      rw [hany]
      dsimp only
      split
      · split <;> simp
      · simp

theorem parse_args_spec (jl : String → Option α) (pe : String → Bool)
    (tokens : List String) : ∀ st : ParseState α,
    (List.foldl (parseItem jl pe) st tokens).args
      = st.args ++ (tokens.filter (fun t => !(t.toList.any (fun c => c == '=')))).map
          (decodeOrString jl) := by
  induction tokens with
  | nil => intro st; simp
  | cons t ts ih =>
      intro st
      simp only [List.foldl_cons, List.filter_cons]
      rw [ih (parseItem jl pe st t), parseItem_args]
      cases hany : t.toList.any (fun c => c == '=') with
      | true => simp
      | false => simp

theorem find?_append_of_all_false (p : α → Bool) (l₁ l₂ : List α)
    (h : ∀ r ∈ l₁, p r = false) : (l₁ ++ l₂).find? p = l₂.find? p := by
  induction l₁ with
  | nil => rfl
  | cons x xs ih =>
      simp only [List.cons_append, List.find?_cons, h x (List.mem_cons_self x xs)]
      exact ih (fun r hr => h r (List.mem_cons_of_mem x hr))

theorem map_notes_update_of_absent (l : List Row) (cid : Nat) (notes : String)
    (h : ∀ r ∈ l, r.id ≠ cid) :
    l.map (fun r => if r.id == cid then { r with notes := some notes } else r) = l := by
  induction l with
  | nil => rfl
  | cons x xs ih =>
      have hx : (x.id == cid) = false := by
        simpa using h x (List.mem_cons_self x xs)
      simp only [List.map_cons, hx, Bool.false_eq_true, if_false]
      rw [ih (fun r hr => h r (List.mem_cons_of_mem x hr))]

theorem find?_map_id_preserving (l : List Row) (other : Nat) (f : Row → Row)
    (hf : ∀ r, (f r).id = r.id) :
    (l.map f).find? (fun r => r.id == other) = (l.find? (fun r => r.id == other)).map f := by
  induction l with
  | nil => rfl
  | cons x xs ih =>
      simp only [List.map_cons, List.find?_cons, hf x]
      cases hx : (x.id == other) with
      | true => rfl
      | false => exact ih

theorem orderedInsert_pairwise (r : Row) (l : List Row)
    (hl : l.Pairwise rowTsDescIdAsc) (hid : ∀ x ∈ l, r.id < x.id) :
    (List.orderedInsert (fun a b => b.timestamp ≤ a.timestamp) r l).Pairwise rowTsDescIdAsc := by
  induction l with
  | nil => simp [List.orderedInsert]
  | cons x xs ih =>
      by_cases hts : x.timestamp ≤ r.timestamp
      · rw [List.orderedInsert, if_pos hts]
        rw [List.pairwise_cons]
        refine ⟨?_, hl⟩
        intro b hb
        have hidb : r.id < b.id := hid b hb
        rcases List.mem_cons.1 hb with hbx | hbxs
        · subst hbx; omega
        · have hxb := (List.pairwise_cons.1 hl).1 b hbxs
          rcases hxb with h1 | ⟨h2, h3⟩ <;> omega
      · rw [List.orderedInsert, if_neg hts]
        rw [List.pairwise_cons]
        constructor
        · intro b hb
          rcases (List.mem_orderedInsert _).1 hb with hbr | hbxs
          · subst hbr; omega
          · exact (List.pairwise_cons.1 hl).1 b hbxs
        · exact ih (List.Pairwise.of_cons hl)
            (fun y hy => hid y (List.mem_cons_of_mem x hy))

theorem sortRows_pairwise (l : List Row) (h : l.Pairwise (fun a b => a.id < b.id)) :
    (sortRows l).Pairwise rowTsDescIdAsc := by
  induction l with
  | nil => simp [sortRows, List.insertionSort]
  | cons r rs ih =>
      have hcons := List.pairwise_cons.1 h
      have hsorted := ih hcons.2
      show (List.orderedInsert _ r (List.insertionSort _ rs)).Pairwise rowTsDescIdAsc
      apply orderedInsert_pairwise r _ hsorted
      intro x hx
      exact hcons.1 x ((List.perm_insertionSort _ rs).subset hx)

theorem truthyClause_iff (o : Option String) (f : String → Bool) :
    ((if pyTruthy o then f (o.getD "") else true) = true)
      ↔ (∀ v, o = some v → v ≠ "" → f v = true) := by
  cases o with
  | none => simp [pyTruthy]
  | some s =>
      by_cases hs : s = "" <;> simp [pyTruthy, hs]

/-! ## Claim C1 — strict number-int binding -/

/-- Claim C1, counterexample.  The claim asserts that in strict binding a
number-int value outside the declared closed range fails with a BindingError.
The code (src/gui.py lines 516-527) has no BindingError and no rejection
path: `bindNumberInt` is total, and with `minimum=1, maximum=100` the raw
value 150 is silently clamped to 100 (while 50 passes through unchanged),
contradicting "it is rejected, not silently clamped". -/
theorem strict_int_binding_counterexample :
    bindNumberInt ⟨some 1, some 100⟩ 150 = 100
      ∧ bindNumberInt ⟨some 1, some 100⟩ 50 = 50 := by
  constructor <;> rfl

/-- Claim C1, amended.  In strict (schema-driven) binding, a number-int
parameter with declared minimum/maximum bounds (defaulting to ±1000000) has
its supplied value silently clamped into the closed widget range: in-range
values pass through unchanged and out-of-range values are corrected to the
nearest bound.  Binding never fails; no BindingError exists. -/
theorem strict_int_binding_clamps (p : NumberIntParam) (v : Int)
    (h : (spinBoxRange p).1 ≤ (spinBoxRange p).2) :
    (spinBoxRange p).1 ≤ bindNumberInt p v
      ∧ bindNumberInt p v ≤ (spinBoxRange p).2
      ∧ ((spinBoxRange p).1 ≤ v → v ≤ (spinBoxRange p).2 → bindNumberInt p v = v)
      ∧ ((spinBoxRange p).2 < v → bindNumberInt p v = (spinBoxRange p).2)
      ∧ (v < (spinBoxRange p).1 → bindNumberInt p v = (spinBoxRange p).1) := by
  unfold bindNumberInt qtSpinBoxCorrect
  omega

/-- Witness for C1's amended theorem at the claim's own instance
`minimum=1, maximum=100`, supplied value 150. -/
theorem strict_int_binding_clamps_witness :
    (spinBoxRange ⟨some 1, some 100⟩).1 ≤ (spinBoxRange ⟨some 1, some 100⟩).2
      ∧ ((spinBoxRange ⟨some 1, some 100⟩).1 ≤ bindNumberInt ⟨some 1, some 100⟩ 150
          ∧ bindNumberInt ⟨some 1, some 100⟩ 150 ≤ (spinBoxRange ⟨some 1, some 100⟩).2
          ∧ ((spinBoxRange ⟨some 1, some 100⟩).1 ≤ 150 → (150 : Int) ≤ (spinBoxRange ⟨some 1, some 100⟩).2 →
              bindNumberInt ⟨some 1, some 100⟩ 150 = 150)
          ∧ ((spinBoxRange ⟨some 1, some 100⟩).2 < 150 →
              bindNumberInt ⟨some 1, some 100⟩ 150 = (spinBoxRange ⟨some 1, some 100⟩).2)
          ∧ (150 < (spinBoxRange ⟨some 1, some 100⟩).1 →
              bindNumberInt ⟨some 1, some 100⟩ 150 = (spinBoxRange ⟨some 1, some 100⟩).1)) :=
  ⟨by decide, strict_int_binding_clamps ⟨some 1, some 100⟩ 150 (by decide)⟩

/-! ## Claim C2 — result(job, timeout): timeout versus failure -/

/-- Claim C2, counterexample.  The claim asserts that a bounded wait on a
FAILED job and a bounded wait that times out produce two outcomes
distinguishable by the caller.  In the code (src/space_runner.py lines
103-128) both exception paths return the same value `None`: the two calls
are indistinguishable by their return value. -/
theorem job_result_counterexample :
    (get_job_result true (jobResultCall
        (JobOutcomeAtDeadline.failedWith "Job Failed" : JobOutcomeAtDeadline Nat))).1
      = (get_job_result true (jobResultCall
          (JobOutcomeAtDeadline.stillRunning : JobOutcomeAtDeadline Nat))).1
    ∧ (get_job_result true (jobResultCall
        (JobOutcomeAtDeadline.failedWith "Job Failed" : JobOutcomeAtDeadline Nat))).1 = none := by
  constructor <;> rfl

/-- Claim C2, amended.  `get_job_result` returns `None` both when the bounded
wait elapses while the job is non-terminal (the caught TimeoutError) and when
the job's terminal state is FAILED (the caught RuntimeError); the two
conditions are distinguished only by the warning message printed, never by
the returned value. -/
theorem job_result_timeout_vs_failed (α : Type) (m : String) :
    get_job_result true (jobResultCall (JobOutcomeAtDeadline.stillRunning : JobOutcomeAtDeadline α))
        = (none, ["Timeout waiting for job result."])
    ∧ get_job_result true (jobResultCall (JobOutcomeAtDeadline.failedWith m : JobOutcomeAtDeadline α))
        = (none, ["Runtime error getting job result: " ++ m ++ " (Job may have failed)"])
    ∧ ("Runtime error getting job result: " ++ m ++ " (Job may have failed)")
        ≠ "Timeout waiting for job result." := by
  refine ⟨rfl, rfl, ?_⟩
  intro hcontra
  have hlen := congrArg String.length hcontra
  have e1 : ("Runtime error getting job result: ").length = 34 := rfl
  have e2 : (" (Job may have failed)").length = 22 := rfl
  have e3 : ("Timeout waiting for job result.").length = 31 := rfl
  rw [String.length_append, String.length_append, e1, e2, e3] at hlen
  omega

/-! ## Claim C10 — store operations are total over sqlite3.Error -/

/-- Claim C10.  When the underlying database raises `sqlite3.Error`, every
ContentStore operation catches it and returns its neutral value — `None` for
`add_content`/`get_content_by_id`, the empty list for
`get_all_content`/`filter_content`, `False` for
`update_content_notes`/`delete_content` — and the store is left unchanged
(the connection context manager rolls the transaction back).  The wrappers
are total Lean functions, so no exception propagates to the caller. -/
theorem store_sqlite_error_neutral (π : Type) (dumps : π → String) (loads : String → Option π)
    (space_id task_description output_type output_data : String) (p : π)
    (notes : Option String) (now : Nat) (content_id limit offset : Nat)
    (new_notes : String) (ot sid kw : Option String) (st : Store) :
    add_contentE true dumps space_id task_description output_type output_data p notes now st
        = (st, none)
    ∧ get_content_by_idE true loads content_id st = none
    ∧ get_all_contentE true loads limit offset st = ([] : List (RecordView π))
    ∧ filter_contentE true loads ot sid kw limit offset st = ([] : List (RecordView π))
    ∧ update_content_notesE true content_id new_notes st = (st, false)
    ∧ delete_contentE true content_id st = (st, false) :=
  ⟨rfl, rfl, rfl, rfl, rfl, rfl⟩

/-! ## Claim C3 — listPaginated ordering -/

/-- Claim C3, counterexample.  The claim asserts ties on equal timestamps are
returned in id descending (reverse insertion) order.  The query
(src/results_manager.py line 111) orders by `timestamp DESC` only, and the
engine returns ties in id ascending (insertion) order: on a store holding two
records with equal timestamps and ids 1, 2, `get_all_content` returns
[1, 2], which violates the claimed tie order. -/
theorem list_paginated_tie_counterexample :
    ((get_all_content loadsU 20 0 stTie).map (fun v => v.id) = [1, 2])
    ∧ (get_all_content loadsU 20 0 stTie).map (fun v => v.timestamp) = [5, 5]
    ∧ ¬ (get_all_content loadsU 20 0 stTie).Pairwise viewTsDescIdDesc := by
  refine ⟨rfl, rfl, by decide⟩

/-- Claim C3, amended.  On a well-formed store, `get_all_content` returns
records ordered by timestamp descending, with ties on equal timestamps broken
by id ascending — insertion order, not reverse insertion order (the query
names no secondary sort key; the engine keeps the scan order for ties). -/
theorem list_paginated_order (π : Type) (loads : String → Option π)
    (limit offset : Nat) (st : Store) (hwf : StoreWF st) :
    (get_all_content loads limit offset st).Pairwise viewTsDescIdAsc := by
  have h1 : (sortRows st.rows).Pairwise rowTsDescIdAsc := sortRows_pairwise st.rows hwf.1
  have hsub : List.Sublist (paginate limit offset (sortRows st.rows)) (sortRows st.rows) :=
    (List.take_sublist _ _).trans (List.drop_sublist _ _)
  have h2 : (paginate limit offset (sortRows st.rows)).Pairwise rowTsDescIdAsc :=
    h1.sublist hsub
  exact List.pairwise_map.2 (h2.imp (fun hab => hab))

/-- Witness for C3's amended theorem on the concrete two-record tied store. -/
theorem list_paginated_order_witness :
    StoreWF stTie ∧ (get_all_content loadsU 20 0 stTie).Pairwise viewTsDescIdAsc :=
  ⟨by decide, list_paginated_order Unit loadsU 20 0 stTie (by decide)⟩

/-! ## Claim C4 — create then getById round trip -/

/-- Claim C4, confirmed.  On a well-formed store, `add_content` followed by
`get_content_by_id` on the returned id yields a record whose fields equal the
inputs unchanged — `parameters` surviving the JSON encode/decode round trip
(hypothesis `hrt`, which holds for Python's json on any JSON-representable
value; `hne` records that `json.dumps` never returns the empty string) —
except `id` and `timestamp`, which are present and server-assigned (the
AUTOINCREMENT counter and the insertion-time clock reading). -/
theorem create_then_get_roundtrip (π : Type) (dumps : π → String) (loads : String → Option π)
    (space_id task_description output_type output_data : String) (p : π)
    (notes : Option String) (now : Nat) (st : Store) (hwf : StoreWF st)
    (hne : dumps p ≠ "") (hrt : loads (dumps p) = some p) :
    (add_content dumps space_id task_description output_type output_data p notes now st).2
        = some st.nextId
    ∧ get_content_by_id loads st.nextId
        (add_content dumps space_id task_description output_type output_data p notes now st).1
      = some ⟨st.nextId, space_id, task_description, now, output_type, output_data, some p, notes⟩ := by
  refine ⟨rfl, ?_⟩
  unfold get_content_by_id add_content
  have hold : ∀ r ∈ st.rows, (fun r : Row => r.id == st.nextId) r = false := by
    intro r hr
    have := hwf.2 r hr
    simp only [beq_eq_false_iff_ne, ne_eq]
    omega
  rw [find?_append_of_all_false _ _ _ hold]
  simp only [List.find?_cons, beq_self_eq_true]
  unfold dict_factory
  simp [hne, hrt]

/-- Witness for C4 on the empty store with the trivial concrete codec. -/
theorem create_then_get_roundtrip_witness :
    StoreWF stEmpty ∧ dumpsU () ≠ "" ∧ loadsU (dumpsU ()) = some ()
    ∧ ((add_content dumpsU "user/cats_space" "Generate image of a cat" "image_path"
          "/path/to/cat.png" () (some "First attempt") 7 stEmpty).2 = some stEmpty.nextId
        ∧ get_content_by_id loadsU stEmpty.nextId
            (add_content dumpsU "user/cats_space" "Generate image of a cat" "image_path"
              "/path/to/cat.png" () (some "First attempt") 7 stEmpty).1
          = some ⟨stEmpty.nextId, "user/cats_space", "Generate image of a cat", 7, "image_path",
              "/path/to/cat.png", some (), some "First attempt"⟩) :=
  ⟨by decide, by decide, rfl,
    create_then_get_roundtrip Unit dumpsU loadsU "user/cats_space" "Generate image of a cat"
      "image_path" "/path/to/cat.png" () (some "First attempt") 7 stEmpty
      (by decide) (by decide) rfl⟩

/-! ## Claim C5 — filter with no predicates equals listPaginated -/

/-- Claim C5, confirmed.  For every store state and every limit/offset,
`filter_content` with no predicates supplied returns exactly the same record
sequence as `get_all_content` over the same range: the assembled WHERE clause
is the vacuous `1=1` and the ordering and pagination are identical. -/
theorem filter_no_predicates_eq_list (π : Type) (loads : String → Option π)
    (limit offset : Nat) (st : Store) :
    filter_content loads none none none limit offset st
      = get_all_content loads limit offset st := by
  unfold filter_content get_all_content
  have hall : ∀ r ∈ st.rows, filterPred none none none r = true := fun r _ => rfl
  rw [List.filter_eq_self.2 hall]

/-! ## Claim C6 — filter predicate semantics -/

/-- Claim C6, counterexample.  The claim asserts `taskKeyword` is a
case-preserving substring match against the task description.  The code uses
SQL `LIKE '%kw%'`, which is case-insensitive on ASCII: filtering the store
whose one record has task description "Translate text to French" by the
keyword "FRENCH" returns that record even though "FRENCH" is not a
(case-preserving) substring of the description. -/
theorem filter_keyword_counterexample :
    (filter_content loadsU none none (some "FRENCH") 20 0 stFrench).map (fun v => v.id) = [1]
    ∧ specSubstring "FRENCH" "Translate text to French" = false := by
  constructor
  · rfl
  · rfl

/-- Claim C6, amended.  The supplied predicates are AND-combined and the
result uses the ordering and pagination pipeline of `get_all_content`; a
predicate that is absent — or supplied as the empty string, which Python
truthiness treats as absent — matches every record; when supplied non-empty,
`outputType` and `spaceId` match by exact string equality, and `taskKeyword`
matches by SQL LIKE `'%kw%'` semantics (substring-style matching that is
case-insensitive on ASCII letters, with `%`/`_` acting as wildcards). -/
theorem filter_predicate_semantics (π : Type) (loads : String → Option π)
    (ot sid kw : Option String) (limit offset : Nat) (st : Store) :
    (∀ r : Row, filterPred ot sid kw r = true ↔
        ((∀ v, ot = some v → v ≠ "" → r.output_type = v)
          ∧ (∀ v, sid = some v → v ≠ "" → r.space_id = v)
          ∧ (∀ v, kw = some v → v ≠ "" → sqlLikeContains v r.task_description = true)))
    ∧ filter_content loads ot sid kw limit offset st
        = (paginate limit offset (sortRows (st.rows.filter (filterPred ot sid kw)))).map
            (dict_factory loads) := by
  constructor
  · intro r
    unfold filterPred
    rw [Bool.and_eq_true, Bool.and_eq_true]
    rw [truthyClause_iff ot (fun v => r.output_type == v),
        truthyClause_iff sid (fun v => r.space_id == v),
        truthyClause_iff kw (fun v => sqlLikeContains v r.task_description)]
    simp only [beq_iff_eq]
    tauto
  · rfl

/-! ## Claim C7 — updateNotes / delete frame conditions -/

/-- Claim C7, confirmed.  `update_content_notes` on an absent id returns
false and leaves the store unchanged; on a present id it returns true,
overwrites only the notes field of that record (its other fields are
untouched), and leaves every other record unchanged; `delete_content`
returns false on an id that never existed, and on an id that was already
deleted (deleting it a second time always reports false). -/
theorem update_delete_frame (π : Type) (loads : String → Option π) (st : Store)
    (content_id : Nat) (notes : String) :
    ((∀ r ∈ st.rows, r.id ≠ content_id) →
        update_content_notes content_id notes st = (st, false)
        ∧ delete_content content_id st = (st, false))
    ∧ ((∃ r ∈ st.rows, r.id = content_id) →
        (update_content_notes content_id notes st).2 = true)
    ∧ (∀ other : Nat, other ≠ content_id →
        get_content_by_id loads other (update_content_notes content_id notes st).1
          = get_content_by_id (π := π) loads other st)
    ∧ (∀ v : RecordView π, get_content_by_id loads content_id st = some v →
        get_content_by_id loads content_id (update_content_notes content_id notes st).1
          = some { v with notes := some notes })
    ∧ (delete_content content_id (delete_content content_id st).1).2 = false := by
  refine ⟨?_, ?_, ?_, ?_, ?_⟩
  · intro habs
    have hany : st.rows.any (fun r => r.id == content_id) = false := by
      simp only [List.any_eq_false]
      intro r hr
      simpa using habs r hr
    constructor
    · unfold update_content_notes
      rw [map_notes_update_of_absent st.rows content_id notes habs, hany]
    · unfold delete_content
      rw [hany]
      have : st.rows.filter (fun r => !(r.id == content_id)) = st.rows := by
        apply List.filter_eq_self.2
        intro r hr
        simpa using habs r hr
      rw [this]
  · rintro ⟨r, hr, hid⟩
    unfold update_content_notes
    simp only [List.any_eq_true]
    exact ⟨r, hr, by simpa using hid⟩
  · intro other hother
    unfold get_content_by_id update_content_notes
    rw [find?_map_id_preserving st.rows other _
        (fun r => by by_cases h : (r.id == content_id) = true <;> simp [h])]
    cases hf : st.rows.find? (fun r => r.id == other) with
    | none => rfl
    | some a =>
        have ha := List.find?_some hf
        have haid : a.id = other := by simpa using ha
        have hne : ¬ ((a.id == content_id) = true) := by
          simp [haid, hother]
        show some (dict_factory loads
            (if a.id == content_id then { a with notes := some notes } else a))
          = some (dict_factory loads a)
        rw [if_neg hne]
  · intro v hv
    unfold get_content_by_id update_content_notes
    unfold get_content_by_id at hv
    rw [find?_map_id_preserving st.rows content_id _
        (fun r => by by_cases h : (r.id == content_id) = true <;> simp [h])]
    cases hf : st.rows.find? (fun r => r.id == content_id) with
    | none => rw [hf] at hv; cases hv
    | some a =>
        rw [hf] at hv
        have ha := List.find?_some hf
        have hva : dict_factory loads a = v := by simpa using hv
        show some (dict_factory loads
            (if a.id == content_id then { a with notes := some notes } else a))
          = some { v with notes := some notes }
        rw [if_pos ha, ← hva]
        rfl
  · unfold delete_content
    simp only [List.any_eq_false]
    intro r hr
    have := List.of_mem_filter hr
    simpa using this

/-- Witness for C7 on the concrete two-record store: id 99 is absent (update
and delete both report false and change nothing), id 1 is present (update
reports true). -/
theorem update_delete_frame_witness :
    (update_content_notes 99 "note" stTie = (stTie, false)
      ∧ delete_content 99 stTie = (stTie, false))
    ∧ (update_content_notes 1 "note" stTie).2 = true :=
  ⟨(update_delete_frame Unit loadsU stTie 99 "note").1 (by decide),
    (update_delete_frame Unit loadsU stTie 1 "note").2.1
      ⟨⟨1, "s", "t", 5, "text", "d", some "x", none⟩, by decide, rfl⟩⟩

/-! ## Claim C8 — permissive binding of key=value and bare tokens -/

/-- String round trip used to normalise goals about reassembled keys and
values: a string rebuilt from its character list is itself. -/
theorem string_mk_toList (s : String) : String.mk s.toList = s := rfl

/-- Claim C8, confirmed.  In permissive binding every bare token becomes a
positional argument in the order given, JSON-decoded where the decoder
succeeds and kept verbatim otherwise (first conjunct, for every token list);
every `key=value` token whose value carries no media extension becomes the
keyword argument `key` with the same decode-or-verbatim value (second
conjunct); and the claim's example tokens bind to positional `[50]` with
keywords `text="Hello"`, `flag=true` (third conjunct).  The embedding is a
total function: binding never fails. -/
theorem permissive_binding_tokens (α : Type) (jl : String → Option α) (pe : String → Bool)
    (v50 vtrue : α)
    (h1 : jl "Hello" = none) (h2 : jl "50" = some v50) (h3 : jl "true" = some vtrue) :
    (∀ tokens : List String,
        (parse_run_params jl pe tokens).1
          = (tokens.filter (fun t => !(t.toList.any (fun c => c == '=')))).map
              (decodeOrString jl))
    ∧ (∀ key value : String, '=' ∉ key.toList → hasMediaExtension value = false →
        parse_run_params jl pe [key ++ "=" ++ value]
          = ([], [(key, decodeOrString jl value)], []))
    ∧ parse_run_params jl pe ["text=Hello", "50", "flag=true"]
        = ([PVal.json v50], [("text", PVal.str "Hello"), ("flag", PVal.json vtrue)], []) := by
  refine ⟨?_, ?_, ?_⟩
  · intro tokens
    exact parse_args_spec jl pe tokens ⟨[], [], []⟩
  · intro key value hk hext
    have htl : (key ++ "=" ++ value).toList = key.toList ++ '=' :: value.toList := by
      show (key ++ "=" ++ value).data = key.data ++ '=' :: value.data
      rw [String.data_append, String.data_append, List.append_assoc]
      rfl
    unfold parse_run_params
    simp only [List.foldl_cons, List.foldl_nil]
    unfold parseItem
    rw [htl, splitFirstEq_of_no_eq key.toList value.toList hk]
    dsimp only
    simp only [string_mk_toList]
    rw [hext]
    rfl
  · have e1 : decodeOrString jl "Hello" = PVal.str "Hello" := by
      unfold decodeOrString; rw [h1]
    have e2 : decodeOrString jl "50" = PVal.json v50 := by
      unfold decodeOrString; rw [h2]
    have e3 : decodeOrString jl "true" = PVal.json vtrue := by
      unfold decodeOrString; rw [h3]
    have keyeq : List.foldl (parseItem jl pe) ⟨[], [], []⟩ ["text=Hello", "50", "flag=true"]
        = (⟨[decodeOrString jl "50"],
            [("text", decodeOrString jl "Hello"), ("flag", decodeOrString jl "true")],
            []⟩ : ParseState α) := rfl
    unfold parse_run_params
    rw [keyeq, e1, e2, e3]

/-- Witness for C8 with a concrete decoder agreeing with Python's json on the
example tokens. -/
theorem permissive_binding_tokens_witness :
    jlW "Hello" = none ∧ jlW "50" = some 1 ∧ jlW "true" = some 2
    ∧ parse_run_params jlW peP ["text=Hello", "50", "flag=true"]
        = ([PVal.json 1], [("text", PVal.str "Hello"), ("flag", PVal.json 2)], []) :=
  ⟨by decide, by decide, by decide,
    (permissive_binding_tokens Nat jlW peP 1 2 (by decide) (by decide) (by decide)).2.2⟩

/-! ## Claim C9 — file resolution in permissive binding -/

/-- Claim C9, counterexample.  The claim asserts that a value ending in a
recognized media extension whose path exists is bound as a
resolved-file-reference whether given positionally or as `key=value`.  In the
code (src/app.py lines 29-52) the extension-and-existence check is applied
only to `key=value` tokens: the bare positional token `"photo.png"`, with
`photo.png` existing, stays a verbatim string (JSON decoding fails), is not
resolved to a file reference, and produces no warning. -/
theorem positional_file_counterexample :
    peP "photo.png" = true
    ∧ parse_run_params jlW peP ["photo.png"] = ([PVal.str "photo.png"], [], []) := by
  constructor
  · rfl
  · rfl

/-- Claim C9, amended.  For a `key=value` token whose value ends in a
recognized media/data extension: when the path exists locally the value is
bound as a resolved-file-reference under `key`; when it does not exist the
original string is kept verbatim under `key` and the non-fatal file-not-found
warning is surfaced.  (Bare positional values are never file-resolved.) -/
theorem permissive_file_binding (α : Type) (jl : String → Option α) (pe : String → Bool)
    (key value : String) (hk : '=' ∉ key.toList) (hext : hasMediaExtension value = true) :
    parse_run_params jl pe [key ++ "=" ++ value]
      = if pe value
        then ([], [(key, PVal.fileRef value)], [])
        else ([], [(key, PVal.str value)], [fileNotFoundWarning key value]) := by
  have htl : (key ++ "=" ++ value).toList = key.toList ++ '=' :: value.toList := by
    show (key ++ "=" ++ value).data = key.data ++ '=' :: value.data
    rw [String.data_append, String.data_append, List.append_assoc]
    rfl
  unfold parse_run_params
  simp only [List.foldl_cons, List.foldl_nil]
  unfold parseItem
  rw [htl, splitFirstEq_of_no_eq key.toList value.toList hk]
  dsimp only
  simp only [string_mk_toList]
  rw [hext]
  cases hpe : pe value with
  | true => simp [hpe, dictInsert]
  | false => simp [hpe, dictInsert]

/-- Witness for C9's amended theorem at the claim's own example
`image=photo.png` with the file present: the binding resolves to a file
reference keyed "image". -/
theorem permissive_file_binding_witness :
    ('=' ∉ "image".toList) ∧ hasMediaExtension "photo.png" = true
    ∧ parse_run_params jlW peP ["image=photo.png"]
        = ([], [("image", PVal.fileRef "photo.png")], []) :=
  ⟨by decide, by decide,
    (permissive_file_binding Nat jlW peP "image" "photo.png" (by decide) (by decide)).trans
      (by rfl)⟩
